import Mathlib

/-!
Verification of the PR-validation core of `forced_unit_tests`
(`.github/scripts/validate_pr.py`).

The script is a sequential orchestrator around external processes (git and
the module-supplied test commands).  We embed it shallowly: every external
process launch is an oracle value (`ProcOutcome` or diff output) supplied as
input, and the script's observable behaviour — the flags it accumulates, the
invocations it launches, the final exit status, and the state of the swapped
working-tree paths — is computed by total Lean functions that mirror the
Python control flow statement by statement.
-/

namespace ValidatePr

/-- The outcome of launching one external process: either it ran and
returned an exit code, or it could not be launched at all (the `except
Exception` path of `run_command`). -/
inductive ProcOutcome where
  | exit (code : Int)
  | launchFailure
deriving DecidableEq, Repr

/-- `run_command` (validate_pr.py lines 30-73), reduced to its verdict
logic: logging aside, the function computes `success` from the exit code and
the `expect_failure` flag and returns `(success, returncode)`; any exception
while launching yields `(False, 1)`.  Totality of this Lean function models
"never throws". -/
def run_command (expect_failure : Bool) (outcome : ProcOutcome) : Bool × Int :=
  match outcome with
  | .exit code =>
    let success := (expect_failure && !(code == 0)) || (!expect_failure && (code == 0))
    if success then (true, code) else (false, code)
  | .launchFailure => (false, 1)

/-- CPython `str.lower`, modelled characterwise (they agree on ASCII input,
which is the domain of every string this script lowercases). -/
def str_lower (s : String) : String := ⟨s.data.map Char.toLower⟩

/-- CPython `str.replace` for a non-empty pattern: scan left to right,
replacing non-overlapping occurrences.  The scan is written with an explicit
fuel (one unit per character of the subject, an upper bound on the number of
steps) so that it is structurally recursive. -/
def replace_fuel (pat rep : List Char) : Nat → List Char → List Char
  | 0, s => s
  | _ + 1, [] => []
  | n + 1, c :: rest =>
    if pat.isPrefixOf (c :: rest) && !pat.isEmpty then
      rep ++ replace_fuel pat rep n ((c :: rest).drop pat.length)
    else c :: replace_fuel pat rep n rest

/-- CPython `str.replace` (non-empty pattern). -/
def str_replace (s pat rep : String) : String :=
  ⟨replace_fuel pat.data rep.data s.data.length s.data⟩

/-- CPython `str.strip()`: drop leading and trailing whitespace. -/
def str_strip (s : String) : String :=
  ⟨((s.data.dropWhile Char.isWhitespace).reverse.dropWhile Char.isWhitespace).reverse⟩

/-- `REGRESSION_REQUIRED` (line 14):
`os.environ.get("REGRESSION_REQUIRED", "false").lower() == "true"`. -/
def regression_required_of (v : Option String) : Bool :=
  str_lower (v.getD "false") == "true"

/-- Python `shlex.quote`: safe characters are ASCII letters, digits, and
`_ @ % + = : , .` together with the slash and the hyphen (the complement of
the `_find_unsafe` ASCII regex). -/
def shlex_safe_char (c : Char) : Bool :=
  c.isAlphanum || c == '_' || c == '@' || c == '%' || c == '+' || c == '=' ||
    c == ':' || c == ',' || c == '.' || c == '/' || c == '-'

/-- Python `shlex.quote`: empty string becomes a pair of single quotes, a
fully safe string is returned unchanged, anything else is wrapped in single
quotes with embedded single quotes escaped. -/
def shlex_quote (s : String) : String :=
  if s == "" then "\x27\x27"
  else if s.data.all shlex_safe_char then s
  else "\x27" ++ str_replace s "\x27" "\x27\x22\x27\x22\x27" ++ "\x27"

/-- Python `" ".join`, written out for direct reasoning. -/
def join_space : List String → String
  | [] => ""
  | [x] => x
  | x :: y :: xs => x ++ " " ++ join_space (y :: xs)

/-- Python truthiness of an optional string config entry
(`if not run_new_cmd_template: ...`): absent or empty is falsy. -/
def str_truthy : Option String → Bool
  | none => false
  | some s => !(s == "")

/-- One module descriptor from the configuration JSON.  Absent
`setup_commands` / pattern lists default to `[]` exactly as
`module.get(..., [])` does; the command templates stay optional. -/
structure Module where
  language_name : Option String
  setup_commands : List String
  code_patterns : List String
  test_patterns : List String
  run_new_tests_command : Option String
  run_all_tests_command : Option String

/-- Classification of the external commands the script launches, used to
state which commands a given path executes. -/
inductive CmdKind where
  | gitConfig
  | mergeBase
  | diff
  | setup
  | checkoutBase
  | checkoutHead
  | newTests
  | allTests
deriving DecidableEq, Repr

/-- A record of one launched external command: the command string, the
`expect_failure` flag it was run with, and its classification. -/
structure Invocation where
  cmd : String
  expect_failure : Bool
  kind : CmdKind
deriving DecidableEq, Repr

/-- State of the working tree restricted to the code paths the base-must-fail
check swaps: at the head revision, at the base revision, or unknown after a
failed checkout (a checkout that errors can leave a partial tree). -/
inductive TreeState where
  | headRev
  | baseRev
  | unknown
deriving DecidableEq, Repr

/-- The mutable state `main` threads through the module loop: the five
global aggregation flags (lines 174-178), plus our two observability
instruments — the tracked tree state and the trace of launched commands. -/
structure RunState where
  overall_failure : Bool
  any_code_changed_without_tests : Bool
  any_new_tests_found : Bool
  at_least_one_new_test_failed_on_main : Bool
  all_required_regressions_passed : Bool
  tree : TreeState
  trace : List Invocation
deriving DecidableEq, Repr

/-- Launch one command: append it to the trace and apply `run_command` to
the oracle-supplied outcome. -/
def launch (s : RunState) (inv : Invocation) (outcome : ProcOutcome) :
    RunState × Bool × Int :=
  let r := run_command inv.expect_failure outcome
  ({ s with trace := s.trace ++ [inv] }, r.1, r.2)

/-- The trace entries produced by running a list of setup commands. -/
def setup_trace (cmds : List String) : List Invocation :=
  cmds.map fun c => ⟨c, false, CmdKind.setup⟩

/-- The oracle for one module's iteration of the loop: outcomes of every
external process the iteration may launch. -/
structure ModuleEnv where
  setupOracle : String → ProcOutcome
  diffCode : Except Unit (List String)
  diffTest : Except Unit (List String)
  checkoutBase : ProcOutcome
  bestEffortRestore : ProcOutcome
  restoreHead : ProcOutcome
  newTests : ProcOutcome
  allTests : ProcOutcome

/-- `get_changed_files` (lines 76-102): empty pattern list returns `[]`
without running git; a diff error returns `None` (here `none`), distinct
from `some []`; otherwise the output lines with empty lines filtered out.
The oracle supplies the diff output as lines (or the error). -/
def get_changed_files (patterns : List String) (res : Except Unit (List String)) :
    Option (List String) :=
  if patterns.isEmpty then some []
  else
    match res with
    | .ok out => some (out.filter (fun f => !(f == "")))
    | .error _ => none

/-- `get_changed_files` together with its process launch: the git diff
command is only launched when the pattern list is non-empty. -/
def run_diff (s : RunState) (from_rev to_rev : String) (patterns : List String)
    (res : Except Unit (List String)) : RunState × Option (List String) :=
  let s :=
    if patterns.isEmpty then s
    else { s with trace := s.trace ++
      [⟨"git diff --name-only --diff-filter=ACMRTUXB " ++ from_rev ++ " " ++ to_rev
          ++ " -- " ++ join_space (patterns.map shlex_quote), false, CmdKind.diff⟩] }
  (s, get_changed_files patterns res)

/-- The setup loop (lines 187-203): run each setup command in order, first
failure sets `overall_failure` and `module_failed_this_run` and breaks.
Returns the state and the `module_failed_this_run` flag. -/
def run_setup (oracle : String → ProcOutcome) (cmds : List String) (s : RunState) :
    RunState × Bool :=
  match cmds with
  | [] => (s, false)
  | c :: rest =>
    let e := launch s ⟨c, false, CmdKind.setup⟩ (oracle c)
    if e.2.1 then run_setup oracle rest e.1
    else ({ e.1 with overall_failure := true }, true)

/-- Rule 3a (lines 237-347): the base-must-fail check.  Checkout the changed
code files at the base revision (only when some changed), run the new tests
expecting failure, and restore the head revision of the swapped paths.
Entered by `main` only when test files changed and the module has not failed
yet; returns the state and `module_failed_this_run`. -/
def rule3a (base_sha head_sha : String) (m : Module) (me : ModuleEnv)
    (changed_code_files changed_test_files : List String) (s : RunState) :
    RunState × Bool :=
  let code_files_to_checkout_str :=
    if !changed_code_files.isEmpty then
      join_space (changed_code_files.map shlex_quote)
    else ""
  let cks :=
    if !changed_code_files.isEmpty then
      let e := launch s
        ⟨"git checkout " ++ base_sha ++ " -- " ++ code_files_to_checkout_str,
          false, CmdKind.checkoutBase⟩ me.checkoutBase
      ({ e.1 with tree := if e.2.1 then TreeState.baseRev else TreeState.unknown },
        e.2.1)
    else (s, true)
  let s := cks.1
  if !cks.2 then
    -- checkout of the base version failed (lines 262-274): mark failure,
    -- best-effort restore, result of the restore ignored
    let s := { s with overall_failure := true }
    let s :=
      if code_files_to_checkout_str ≠ "" then
        let e := launch s
          ⟨"git checkout " ++ head_sha ++ " -- " ++ code_files_to_checkout_str,
            false, CmdKind.checkoutHead⟩ me.bestEffortRestore
        { e.1 with tree := if e.2.1 then TreeState.headRev else TreeState.unknown }
      else s
    (s, true)
  else
    let step :=
      if str_truthy m.run_new_tests_command then
        -- run the changed tests against the (possibly swapped) tree,
        -- expecting a non-zero exit (lines 284-328)
        let tmpl := m.run_new_tests_command.getD ""
        let test_files_list_str := join_space (changed_test_files.map shlex_quote)
        let run_new_cmd := str_replace tmpl "\x7bTEST_FILES\x7d" test_files_list_str
        let e := launch s ⟨run_new_cmd, true, CmdKind.newTests⟩ me.newTests
        if e.2.1 then
          ({ e.1 with at_least_one_new_test_failed_on_main := true }, false)
        else
          ({ e.1 with overall_failure := true }, true)
      else
        -- `run_new_tests_command` not defined: warning only, check skipped
        -- (lines 279-283)
        (s, false)
    let s := step.1
    if code_files_to_checkout_str ≠ "" then
      -- restore the PR version of the swapped paths (lines 330-347),
      -- executed whatever the test step did; a restore failure is critical
      let e := launch s
        ⟨"git checkout " ++ head_sha ++ " -- " ++ code_files_to_checkout_str,
          false, CmdKind.checkoutHead⟩ me.restoreHead
      let s2 := { e.1 with tree := if e.2.1 then TreeState.headRev else TreeState.unknown }
      if !e.2.1 then ({ s2 with overall_failure := true }, true)
      else (s2, step.2)
    else (s, step.2)

/-- Rule 3b / Rule 4 (lines 349-389): run all tests expecting success, only
when (test files changed or regression is required) and the command template
is truthy and the module has not already failed.  An untruthy template
merely logs a warning. -/
def rule3b (rr : Bool) (m : Module) (me : ModuleEnv) (has_test module_failed : Bool)
    (s : RunState) : RunState × Bool :=
  let should_run_all_tests :=
    (has_test || rr) && str_truthy m.run_all_tests_command
  if should_run_all_tests && !module_failed then
    let e := launch s
      ⟨m.run_all_tests_command.getD "", false, CmdKind.allTests⟩ me.allTests
    if !e.2.1 then
      let s := { e.1 with overall_failure := true }
      let s := if rr then { s with all_required_regressions_passed := false } else s
      (s, true)
    else (e.1, module_failed)
  else (s, module_failed)

/-- One iteration of the module loop (lines 181-392): setup, change-set
resolution, rule 2 (untested code change), rule 3a, rule 3b.  Returns the
threaded state and `module_failed_this_run` as it stands at the `continue`
or at the loop bottom. -/
def validate_module (rr : Bool) (base_sha head_sha merge_base : String)
    (m : Module) (me : ModuleEnv) (s : RunState) : RunState × Bool :=
  let r0 := run_setup me.setupOracle m.setup_commands s
  if r0.2 then (r0.1, true)
  else
    let r1 := run_diff r0.1 merge_base head_sha m.code_patterns me.diffCode
    let r2 := run_diff r1.1 merge_base head_sha m.test_patterns me.diffTest
    match r1.2, r2.2 with
    | some changed_code_files, some changed_test_files =>
      let s := r2.1
      let module_has_code_changes := !changed_code_files.isEmpty
      let module_has_test_changes := !changed_test_files.isEmpty
      let s := if module_has_test_changes then { s with any_new_tests_found := true }
        else s
      -- Rule 2 (lines 226-234)
      let step2 :=
        if module_has_code_changes && !module_has_test_changes then
          ({ s with any_code_changed_without_tests := true, overall_failure := true },
            true)
        else (s, false)
      -- Rule 3a (line 237): only when tests changed and not failed yet
      let step3 :=
        if module_has_test_changes && !step2.2 then
          rule3a base_sha head_sha m me changed_code_files changed_test_files step2.1
        else step2
      rule3b rr m me module_has_test_changes step3.2 step3.1
    | _, _ =>
      -- lines 212-215: diff failure, mark the run failed and `continue`;
      -- the local `module_failed_this_run` flag is left untouched there
      ({ r2.1 with overall_failure := true }, false)

/-- The merge-base computation (lines 154-171): strip the output; an error
or empty output is fatal. -/
def compute_merge_base (res : Except Unit String) : Option String :=
  match res with
  | .error _ => none
  | .ok out =>
    let merge_base := str_strip out
    if merge_base == "" then none else some merge_base

/-- Oracle for a whole run. -/
structure RunEnv where
  workspace : String
  git_config : ProcOutcome
  merge_base_out : Except Unit String
  module_envs : List ModuleEnv

/-- The state at the top of `main`, before any module runs. -/
def initState : RunState :=
  { overall_failure := false
    any_code_changed_without_tests := false
    any_new_tests_found := false
    at_least_one_new_test_failed_on_main := false
    all_required_regressions_passed := true
    tree := TreeState.headRev
    trace := [] }

/-- The module loop itself. -/
def run_modules (rr : Bool) (base_sha head_sha merge_base : String) :
    List (Module × ModuleEnv) → RunState → RunState
  | [], s => s
  | p :: rest, s =>
    run_modules rr base_sha head_sha merge_base rest
      (validate_module rr base_sha head_sha merge_base p.1 p.2 s).1

/-- The final evaluation (lines 394-438), transcribed with the two mutated
variables (`final_message`, `overall_failure`) made explicit.  Returns
`true` when the final message is FAILED. -/
def final_failed (rr : Bool) (s : RunState) : Bool :=
  let failed1 := if s.any_code_changed_without_tests then true else false
  let missed_base_failure :=
    s.any_new_tests_found && !s.at_least_one_new_test_failed_on_main
  let failed2 :=
    if missed_base_failure && !s.overall_failure then true else failed1
  let overall2 :=
    if missed_base_failure && !s.overall_failure then true else s.overall_failure
  let failed3 :=
    if rr && !s.all_required_regressions_passed then true else failed2
  if overall2 && !failed3 then true else failed3

/-- `main` (lines 127-438) after configuration parsing (an external
collaborator per the design): git-config the safe directory, compute the
merge base once (fatal on failure), iterate the modules, evaluate.  Returns
the process exit status and the final state. -/
def main_run (rr : Bool) (base_sha head_sha : String) (modules : List Module)
    (env : RunEnv) : Nat × RunState :=
  let e0 := launch initState
    ⟨"git config --global --add safe.directory " ++ env.workspace,
      false, CmdKind.gitConfig⟩ env.git_config
  let s0 := { e0.1 with trace := e0.1.trace ++
    [⟨"git merge-base " ++ head_sha ++ " " ++ base_sha, false, CmdKind.mergeBase⟩] }
  match compute_merge_base env.merge_base_out with
  | none => (1, s0)
  | some merge_base =>
    let s := run_modules rr base_sha head_sha merge_base
      (modules.zip env.module_envs) s0
    (if final_failed rr s then 1 else 0, s)

/-- Modelled from the spec: the label gate lives in the GitHub workflow that
invokes `validate_pr.py`, which is not under `src/`.  Per the spec ("If
`skip-test-validation` is present, the run immediately succeeds without
evaluating any module"), the gate short-circuits to exit status 0 with no
command launched; otherwise it runs the script. -/
def orchestrate (labels : List String) (rr : Bool) (base_sha head_sha : String)
    (modules : List Module) (env : RunEnv) : Nat × List Invocation :=
  if "skip-test-validation" ∈ labels then (0, [])
  else
    let r := main_run rr base_sha head_sha modules env
    (r.1, r.2.trace)

/-! ## Helper lemmas -/

theorem shlex_quote_ne_empty (s : String) : shlex_quote s ≠ "" := by
  unfold shlex_quote
  split
  · decide
  · split
    · rename_i h _
      simp only [beq_iff_eq] at h
      exact h
    · intro hc
      have := congrArg String.data hc
      rw [String.data_append, String.data_append] at this
      simp at this

theorem join_space_ne_empty (l : List String) (hne : l ≠ [])
    (hmem : ∀ x ∈ l, x ≠ "") : join_space l ≠ "" := by
  match l, hne with
  | [x], _ =>
    exact hmem x (by simp)
  | x :: y :: xs, _ =>
    show x ++ " " ++ join_space (y :: xs) ≠ ""
    intro hc
    have := congrArg String.data hc
    rw [String.data_append, String.data_append] at this
    simp at this

theorem joined_quoted_ne_empty (l : List String) (hne : l ≠ []) :
    join_space (l.map shlex_quote) ≠ "" := by
  apply join_space_ne_empty
  · simpa using hne
  · intro x hx
    obtain ⟨a, _, rfl⟩ := List.mem_map.mp hx
    exact shlex_quote_ne_empty a

theorem run_setup_preserves (oracle : String → ProcOutcome) (cmds : List String)
    (s : RunState) :
    (run_setup oracle cmds s).1.tree = s.tree ∧
    (run_setup oracle cmds s).1.any_code_changed_without_tests
      = s.any_code_changed_without_tests ∧
    (run_setup oracle cmds s).1.any_new_tests_found = s.any_new_tests_found ∧
    (run_setup oracle cmds s).1.at_least_one_new_test_failed_on_main
      = s.at_least_one_new_test_failed_on_main ∧
    (run_setup oracle cmds s).1.all_required_regressions_passed
      = s.all_required_regressions_passed ∧
    (s.overall_failure = true → (run_setup oracle cmds s).1.overall_failure = true) ∧
    ∃ t, (run_setup oracle cmds s).1.trace = s.trace ++ t ∧
      ∀ i ∈ t, i.kind = CmdKind.setup := by
  induction cmds generalizing s with
  | nil => exact ⟨rfl, rfl, rfl, rfl, rfl, fun h => h, [], by simp [run_setup], by simp⟩
  | cons c rest ih =>
    simp only [run_setup, launch]
    split
    · obtain ⟨h1, h2, h3, h4, h5, h6, t, ht, hk⟩ :=
        ih { s with trace := s.trace ++ [⟨c, false, CmdKind.setup⟩] }
      refine ⟨h1, h2, h3, h4, h5, h6, ⟨c, false, CmdKind.setup⟩ :: t, ?_, ?_⟩
      · rw [ht]; simp
      · intro i hi
        rcases List.mem_cons.mp hi with hi | hi
        · subst hi; rfl
        · exact hk i hi
    · exact ⟨rfl, rfl, rfl, rfl, rfl, fun _ => rfl,
        [⟨c, false, CmdKind.setup⟩], rfl, by simp⟩

theorem run_setup_ok (oracle : String → ProcOutcome) (cmds : List String)
    (s : RunState) (h : ∀ c ∈ cmds, (run_command false (oracle c)).1 = true) :
    run_setup oracle cmds s =
      ({ s with trace := s.trace ++ setup_trace cmds }, false) := by
  induction cmds generalizing s with
  | nil => simp [run_setup, setup_trace]
  | cons c rest ih =>
    have hc := h c (by simp)
    simp only [run_setup, launch, hc, if_true]
    rw [ih _ (fun x hx => h x (by simp [hx]))]
    simp [setup_trace]

theorem run_diff_snd (s : RunState) (f t : String) (p : List String)
    (res : Except Unit (List String)) :
    (run_diff s f t p res).2 = get_changed_files p res := rfl

theorem run_diff_preserves (s : RunState) (f t : String) (p : List String)
    (res : Except Unit (List String)) :
    (run_diff s f t p res).1.tree = s.tree ∧
    (run_diff s f t p res).1.overall_failure = s.overall_failure ∧
    (run_diff s f t p res).1.any_code_changed_without_tests
      = s.any_code_changed_without_tests ∧
    (run_diff s f t p res).1.any_new_tests_found = s.any_new_tests_found ∧
    (run_diff s f t p res).1.at_least_one_new_test_failed_on_main
      = s.at_least_one_new_test_failed_on_main ∧
    (run_diff s f t p res).1.all_required_regressions_passed
      = s.all_required_regressions_passed ∧
    ∃ tr, (run_diff s f t p res).1.trace = s.trace ++ tr ∧
      ∀ i ∈ tr, i.kind = CmdKind.diff := by
  unfold run_diff
  split
  · exact ⟨rfl, rfl, rfl, rfl, rfl, rfl, [], by simp, by simp⟩
  · exact ⟨rfl, rfl, rfl, rfl, rfl, rfl, [_], rfl, by simp⟩

theorem rule3b_not_truthy (rr : Bool) (m : Module) (me : ModuleEnv)
    (ht mf : Bool) (s : RunState)
    (h : str_truthy m.run_all_tests_command = false) :
    rule3b rr m me ht mf s = (s, mf) := by
  simp [rule3b, h]

theorem rule3b_failed_module (rr : Bool) (m : Module) (me : ModuleEnv)
    (ht : Bool) (s : RunState) :
    rule3b rr m me ht true s = (s, true) := by
  simp [rule3b]

theorem rule3b_preserves (rr : Bool) (m : Module) (me : ModuleEnv)
    (ht mf : Bool) (s : RunState) :
    (rule3b rr m me ht mf s).1.tree = s.tree ∧
    (rule3b rr m me ht mf s).1.any_code_changed_without_tests
      = s.any_code_changed_without_tests ∧
    (rule3b rr m me ht mf s).1.any_new_tests_found = s.any_new_tests_found ∧
    (rule3b rr m me ht mf s).1.at_least_one_new_test_failed_on_main
      = s.at_least_one_new_test_failed_on_main ∧
    (s.overall_failure = true → (rule3b rr m me ht mf s).1.overall_failure = true) ∧
    ∃ tr, (rule3b rr m me ht mf s).1.trace = s.trace ++ tr ∧
      ∀ i ∈ tr, i.kind = CmdKind.allTests := by
  unfold rule3b launch
  by_cases h1 : ((ht || rr) && str_truthy m.run_all_tests_command && !mf) = true
  · rw [if_pos h1]
    by_cases h2 : (run_command false me.allTests).1 = true
    · simp only [h2, Bool.not_true, Bool.false_eq_true, if_false]
      exact ⟨by simp, by simp, by simp, by simp, by simp, [_], by rfl, by simp⟩
    · simp only [Bool.not_eq_true] at h2
      simp only [h2, Bool.not_false, if_true]
      by_cases h3 : rr = true
      · simp only [h3, if_true]
        exact ⟨by simp, by simp, by simp, by simp, by simp, [_], by rfl, by simp⟩
      · simp only [h3, if_false]
        exact ⟨by simp, by simp, by simp, by simp, by simp, [_], by rfl, by simp⟩
  · rw [if_neg h1]
    exact ⟨rfl, rfl, rfl, rfl, fun h => h, [], by simp, by simp⟩

theorem rule3a_no_code_no_template (base_sha head_sha : String) (m : Module)
    (me : ModuleEnv) (ctf : List String) (s : RunState)
    (h : str_truthy m.run_new_tests_command = false) :
    rule3a base_sha head_sha m me [] ctf s = (s, false) := by
  unfold rule3a launch
  simp [h]

theorem rule3a_no_code_with_template (base_sha head_sha : String) (m : Module)
    (me : ModuleEnv) (ctf : List String) (s : RunState)
    (h : str_truthy m.run_new_tests_command = true) :
    ∃ c, ((rule3a base_sha head_sha m me [] ctf s).1.trace
        = s.trace ++ [⟨c, true, CmdKind.newTests⟩]) ∧
      (rule3a base_sha head_sha m me [] ctf s).1.tree = s.tree := by
  unfold rule3a launch
  simp only [h]
  by_cases h2 : (run_command true me.newTests).1 = true <;> simp [h2]

theorem rule3a_tree_invariant (base_sha head_sha : String) (m : Module)
    (me : ModuleEnv) (ccf ctf : List String) (s : RunState)
    (h : s.tree = TreeState.headRev) :
    (rule3a base_sha head_sha m me ccf ctf s).1.tree = TreeState.headRev ∨
      (rule3a base_sha head_sha m me ccf ctf s).1.overall_failure = true := by
  unfold rule3a launch
  cases hC : ccf.isEmpty with
  | true =>
    by_cases hT : str_truthy m.run_new_tests_command = true
    · by_cases h2 : (run_command true me.newTests).1 = true <;>
        simp [hC, hT, h2, h]
    · simp at hT
      simp [hC, hT, h]
  | false =>
    have hne : join_space (ccf.map shlex_quote) ≠ "" :=
      joined_quoted_ne_empty ccf (by simpa [List.isEmpty_iff] using hC)
    by_cases hB : (run_command false me.checkoutBase).1 = true
    · by_cases hR : (run_command false me.restoreHead).1 = true
      · by_cases hT : str_truthy m.run_new_tests_command = true
        · by_cases h2 : (run_command true me.newTests).1 = true <;>
            simp [hC, hB, hR, hT, h2, hne]
        · simp at hT
          simp [hC, hB, hR, hT, hne]
      · simp at hR
        by_cases hT : str_truthy m.run_new_tests_command = true
        · by_cases h2 : (run_command true me.newTests).1 = true <;>
            simp [hC, hB, hR, hT, h2, hne]
        · simp at hT
          simp [hC, hB, hR, hT, hne]
    · simp at hB
      by_cases hE : (run_command false me.bestEffortRestore).1 = true <;>
        simp [hC, hB, hE, hne]

theorem rule3a_overall_mono (base_sha head_sha : String) (m : Module)
    (me : ModuleEnv) (ccf ctf : List String) (s : RunState)
    (h : s.overall_failure = true) :
    (rule3a base_sha head_sha m me ccf ctf s).1.overall_failure = true := by
  unfold rule3a launch
  cases hC : ccf.isEmpty with
  | true =>
    by_cases hT : str_truthy m.run_new_tests_command = true
    · by_cases h2 : (run_command true me.newTests).1 = true <;>
        simp [hC, hT, h2, h]
    · simp at hT
      simp [hC, hT, h]
  | false =>
    have hne : join_space (ccf.map shlex_quote) ≠ "" :=
      joined_quoted_ne_empty ccf (by simpa [List.isEmpty_iff] using hC)
    by_cases hB : (run_command false me.checkoutBase).1 = true
    · by_cases hR : (run_command false me.restoreHead).1 = true
      · by_cases hT : str_truthy m.run_new_tests_command = true
        · by_cases h2 : (run_command true me.newTests).1 = true <;>
            simp [hC, hB, hR, hT, h2, hne, h]
        · simp at hT
          simp [hC, hB, hR, hT, hne, h]
      · simp at hR
        by_cases hT : str_truthy m.run_new_tests_command = true
        · by_cases h2 : (run_command true me.newTests).1 = true <;>
            simp [hC, hB, hR, hT, h2, hne, h]
        · simp at hT
          simp [hC, hB, hR, hT, hne, h]
    · simp at hB
      by_cases hE : (run_command false me.bestEffortRestore).1 = true <;>
        simp [hC, hB, hE, hne, h]

theorem rule3a_restore_fail (base_sha head_sha : String) (m : Module)
    (me : ModuleEnv) (ccf ctf : List String) (s : RunState)
    (hcode : ccf ≠ [])
    (hB : (run_command false me.checkoutBase).1 = true)
    (hR : (run_command false me.restoreHead).1 = false) :
    (rule3a base_sha head_sha m me ccf ctf s).1.overall_failure = true ∧
      (rule3a base_sha head_sha m me ccf ctf s).2 = true := by
  unfold rule3a launch
  have hC : ccf.isEmpty = false := by simp [List.isEmpty_iff, hcode]
  have hne : join_space (ccf.map shlex_quote) ≠ "" :=
    joined_quoted_ne_empty ccf hcode
  by_cases hT : str_truthy m.run_new_tests_command = true
  · by_cases h2 : (run_command true me.newTests).1 = true <;>
      simp [hC, hB, hR, hT, h2, hne]
  · simp at hT
    simp [hC, hB, hR, hT, hne]

theorem rule3a_no_template (base_sha head_sha : String) (m : Module)
    (me : ModuleEnv) (ccf ctf : List String) (s : RunState)
    (hT : str_truthy m.run_new_tests_command = false)
    (hok : ccf = [] ∨ ((run_command false me.checkoutBase).1 = true ∧
      (run_command false me.restoreHead).1 = true)) :
    (rule3a base_sha head_sha m me ccf ctf s).2 = false ∧
    (rule3a base_sha head_sha m me ccf ctf s).1.at_least_one_new_test_failed_on_main
      = s.at_least_one_new_test_failed_on_main ∧
    (rule3a base_sha head_sha m me ccf ctf s).1.overall_failure = s.overall_failure ∧
    ∀ i ∈ (rule3a base_sha head_sha m me ccf ctf s).1.trace,
      i ∈ s.trace ∨ i.kind ≠ CmdKind.newTests := by
  rcases hok with rfl | ⟨hB, hR⟩
  · rw [rule3a_no_code_no_template base_sha head_sha m me ctf s hT]
    exact ⟨rfl, rfl, rfl, fun i hi => Or.inl hi⟩
  · cases hC : ccf.isEmpty with
    | true =>
      have : ccf = [] := by simpa [List.isEmpty_iff] using hC
      subst this
      rw [rule3a_no_code_no_template base_sha head_sha m me ctf s hT]
      exact ⟨rfl, rfl, rfl, fun i hi => Or.inl hi⟩
    | false =>
      have hne : join_space (ccf.map shlex_quote) ≠ "" :=
        joined_quoted_ne_empty ccf (by simpa [List.isEmpty_iff] using hC)
      unfold rule3a launch
      simp only [hC, hB, hR, hT]
      refine ⟨by simp [hne], by simp [hne], by simp [hne], ?_⟩
      intro i hi
      simp [hne] at hi
      rcases hi with hi | hi | hi
      · exact Or.inl hi
      · right; rw [hi]; simp
      · right; rw [hi]; simp

theorem validate_module_overall_mono (rr : Bool) (bs hs mb : String) (m : Module)
    (me : ModuleEnv) (s : RunState) (h : s.overall_failure = true) :
    (validate_module rr bs hs mb m me s).1.overall_failure = true := by
  simp only [validate_module]
  have h0 := (run_setup_preserves me.setupOracle m.setup_commands s).2.2.2.2.2.1 h
  have h1 := (run_diff_preserves (run_setup me.setupOracle m.setup_commands s).1
    mb hs m.code_patterns me.diffCode).2.1
  have h2 := (run_diff_preserves (run_diff (run_setup me.setupOracle m.setup_commands s).1
    mb hs m.code_patterns me.diffCode).1 mb hs m.test_patterns me.diffTest).2.1
  have hov : (run_diff (run_diff (run_setup me.setupOracle m.setup_commands s).1
      mb hs m.code_patterns me.diffCode).1 mb hs m.test_patterns
      me.diffTest).1.overall_failure = true := h2.trans (h1.trans h0)
  split
  · exact h0
  · split
    · rename_i ccf ctf hccf hctf
      cases hht : ctf.isEmpty with
      | true =>
        cases hhc : ccf.isEmpty with
        | true =>
          simp only [Bool.not_true, Bool.not_false, Bool.and_false, Bool.false_and,
            Bool.and_true, Bool.true_and, Bool.false_eq_true, if_false]
          exact (rule3b_preserves _ _ _ _ _ _).2.2.2.2.1 hov
        | false =>
          simp only [Bool.not_true, Bool.not_false, Bool.and_false, Bool.false_and,
            Bool.and_true, Bool.true_and, Bool.false_eq_true, if_false, if_true]
          rw [rule3b_failed_module]
      | false =>
        simp only [Bool.not_true, Bool.not_false, Bool.and_false, Bool.false_and,
          Bool.and_true, Bool.true_and, Bool.false_eq_true, if_false, if_true]
        exact (rule3b_preserves _ _ _ _ _ _).2.2.2.2.1
          (rule3a_overall_mono _ _ _ _ _ _ _ hov)
    · simp

theorem rule3b_tree_or_overall (rr : Bool) (m : Module) (me : ModuleEnv)
    (ht mf : Bool) (s : RunState)
    (h : s.tree = TreeState.headRev ∨ s.overall_failure = true) :
    (rule3b rr m me ht mf s).1.tree = TreeState.headRev ∨
      (rule3b rr m me ht mf s).1.overall_failure = true := by
  obtain ⟨htr, -, -, -, hmono, -⟩ := rule3b_preserves rr m me ht mf s
  rcases h with h | h
  · exact Or.inl (htr.trans h)
  · exact Or.inr (hmono h)

theorem run_modules_overall_mono (rr : Bool) (bs hs mb : String)
    (l : List (Module × ModuleEnv)) (s : RunState) (h : s.overall_failure = true) :
    (run_modules rr bs hs mb l s).overall_failure = true := by
  induction l generalizing s with
  | nil => exact h
  | cons p rest ih =>
    exact ih _ (validate_module_overall_mono rr bs hs mb p.1 p.2 s h)

theorem run_modules_append (rr : Bool) (bs hs mb : String)
    (a b : List (Module × ModuleEnv)) (s : RunState) :
    run_modules rr bs hs mb (a ++ b) s
      = run_modules rr bs hs mb b (run_modules rr bs hs mb a s) := by
  induction a generalizing s with
  | nil => rfl
  | cons p rest ih => exact ih _

theorem final_failed_of_overall (rr : Bool) (s : RunState)
    (h : s.overall_failure = true) : final_failed rr s = true := by
  unfold final_failed
  simp only [h, Bool.and_false, Bool.not_true]
  split <;> split <;> simp_all

/-! ## C1: the restore invariant of the code swap -/

/-- C1: for every module (any oracle, any incoming state whose swapped paths
are at the head revision), after the module's validation the swapped paths
are back at the head revision unless the run has been marked failed; and
when the base-must-fail check did swap (code files changed, base checkout
succeeded) and the restore checkout fails, that failure is escalated: the
run is marked failed and the module's verdict is a failure. -/
theorem C1_swap_restore_invariant (rr : Bool) (bs hs mb : String) (m : Module)
    (me : ModuleEnv) (s : RunState) (h : s.tree = TreeState.headRev) :
    ((validate_module rr bs hs mb m me s).1.tree = TreeState.headRev ∨
      (validate_module rr bs hs mb m me s).1.overall_failure = true) ∧
    (∀ ccf ctf,
      (∀ c ∈ m.setup_commands, (run_command false (me.setupOracle c)).1 = true) →
      get_changed_files m.code_patterns me.diffCode = some ccf →
      get_changed_files m.test_patterns me.diffTest = some ctf →
      ccf ≠ [] → ctf ≠ [] →
      (run_command false me.checkoutBase).1 = true →
      (run_command false me.restoreHead).1 = false →
      (validate_module rr bs hs mb m me s).1.overall_failure = true ∧
        (validate_module rr bs hs mb m me s).2 = true) := by
  constructor
  · -- the invariant itself
    simp only [validate_module]
    have ht0 := (run_setup_preserves me.setupOracle m.setup_commands s).1
    have ht1 := (run_diff_preserves (run_setup me.setupOracle m.setup_commands s).1
      mb hs m.code_patterns me.diffCode).1
    have ht2 := (run_diff_preserves (run_diff (run_setup me.setupOracle m.setup_commands s).1
      mb hs m.code_patterns me.diffCode).1 mb hs m.test_patterns me.diffTest).1
    have htr : (run_diff (run_diff (run_setup me.setupOracle m.setup_commands s).1
        mb hs m.code_patterns me.diffCode).1 mb hs m.test_patterns
        me.diffTest).1.tree = TreeState.headRev := ht2.trans (ht1.trans (ht0.trans h))
    split
    · exact Or.inl (ht0.trans h)
    · split
      · rename_i ccf ctf hccf hctf
        cases hht : ctf.isEmpty with
        | true =>
          cases hhc : ccf.isEmpty with
          | true =>
            simp only [Bool.not_true, Bool.not_false, Bool.and_false, Bool.false_and,
              Bool.and_true, Bool.true_and, Bool.false_eq_true, if_false]
            exact rule3b_tree_or_overall _ _ _ _ _ _ (Or.inl htr)
          | false =>
            simp only [Bool.not_true, Bool.not_false, Bool.and_false, Bool.false_and,
              Bool.and_true, Bool.true_and, Bool.false_eq_true, if_false, if_true]
            rw [rule3b_failed_module]
            exact Or.inr rfl
        | false =>
          simp only [Bool.not_true, Bool.not_false, Bool.and_false, Bool.false_and,
            Bool.and_true, Bool.true_and, Bool.false_eq_true, if_false, if_true]
          exact rule3b_tree_or_overall _ _ _ _ _ _
            (rule3a_tree_invariant _ _ _ _ _ _ _ htr)
      · exact Or.inr rfl
  · -- escalation of a failed restore
    intro ccf ctf hsetup hccf hctf hcne htne hB hR
    have hhc : ccf.isEmpty = false := by simp [List.isEmpty_iff, hcne]
    have hht : ctf.isEmpty = false := by simp [List.isEmpty_iff, htne]
    simp only [validate_module, run_setup_ok me.setupOracle m.setup_commands s hsetup,
      run_diff_snd, hccf, hctf, hhc, hht, Bool.not_false, Bool.and_true, Bool.true_and,
      Bool.and_false, Bool.false_and, Bool.not_true, Bool.false_eq_true, if_false, if_true]
    obtain ⟨hov, hmf⟩ := rule3a_restore_fail bs hs m me ccf ctf _ hcne hB hR
    rw [hmf, rule3b_failed_module]
    exact ⟨hov, rfl⟩

/-- A concrete module used by several witnesses: one code pattern, one test
pattern, a new-tests template and no all-tests template. -/
def sample_module : Module :=
  ⟨some "python", [], ["calculator/*.calc"], ["tests/test_*.calc"],
    some "pytest \x7bTEST_FILES\x7d", none⟩

/-- A concrete oracle where the swap succeeds, the new tests fail on base as
expected, but the restore checkout fails. -/
def restore_fail_env : ModuleEnv :=
  ⟨fun _ => ProcOutcome.exit 0, Except.ok ["calculator/calc.py"],
    Except.ok ["tests/test_calc.py"], ProcOutcome.exit 0, ProcOutcome.exit 0,
    ProcOutcome.exit 1, ProcOutcome.exit 1, ProcOutcome.exit 0⟩

/-- Witness for C1: at the concrete failing-restore module the run is marked
failed and the module's verdict is a failure. -/
theorem C1_swap_restore_invariant_witness :
    (validate_module false "B" "H" "MB" sample_module restore_fail_env
        initState).1.overall_failure = true ∧
      (validate_module false "B" "H" "MB" sample_module restore_fail_env
        initState).2 = true :=
  (C1_swap_restore_invariant false "B" "H" "MB" sample_module restore_fail_env
      initState (by decide)).2
    ["calculator/calc.py"] ["tests/test_calc.py"] (by decide) (by decide)
    (by decide) (by decide) (by decide) (by decide) (by decide)

/-! ## C2: code changed without tests -/

/-- C2: for every module whose resolved change set has non-empty code files
and empty test files, the module fails with the untested-code-change reason
(the dedicated flag is raised and the run is marked failed), regardless of
the regression-required flag, and no test command — neither the
new-tests-on-base command nor the all-tests command (nor any checkout) — is
launched for that module. -/
theorem C2_untested_code_change (rr : Bool) (bs hs mb : String) (m : Module)
    (me : ModuleEnv) (s : RunState) (ccf : List String)
    (hsetup : ∀ c ∈ m.setup_commands, (run_command false (me.setupOracle c)).1 = true)
    (hccf : get_changed_files m.code_patterns me.diffCode = some ccf)
    (hcne : ccf ≠ [])
    (hctf : get_changed_files m.test_patterns me.diffTest = some []) :
    (validate_module rr bs hs mb m me s).2 = true ∧
    (validate_module rr bs hs mb m me s).1.any_code_changed_without_tests = true ∧
    (validate_module rr bs hs mb m me s).1.overall_failure = true ∧
    ∀ i ∈ (validate_module rr bs hs mb m me s).1.trace,
      i ∈ s.trace ∨ (i.kind ≠ CmdKind.newTests ∧ i.kind ≠ CmdKind.allTests ∧
        i.kind ≠ CmdKind.checkoutBase ∧ i.kind ≠ CmdKind.checkoutHead) := by
  have hhc : ccf.isEmpty = false := by simp [List.isEmpty_iff, hcne]
  simp only [validate_module, run_setup_ok me.setupOracle m.setup_commands s hsetup,
    run_diff_snd, hccf, hctf, hhc, List.isEmpty_nil, Bool.not_true, Bool.not_false,
    Bool.and_true, Bool.true_and, Bool.and_false, Bool.false_and, Bool.false_eq_true,
    if_false, if_true]
  rw [rule3b_failed_module]
  refine ⟨rfl, rfl, rfl, ?_⟩
  obtain ⟨-, -, -, -, -, -, t1, ht1, hk1⟩ :=
    run_diff_preserves { s with trace := s.trace ++ setup_trace m.setup_commands }
      mb hs m.code_patterns me.diffCode
  obtain ⟨-, -, -, -, -, -, t2, ht2, hk2⟩ :=
    run_diff_preserves
      (run_diff { s with trace := s.trace ++ setup_trace m.setup_commands }
        mb hs m.code_patterns me.diffCode).1 mb hs m.test_patterns me.diffTest
  intro i hi
  rw [ht2, ht1] at hi
  simp only [List.append_assoc, List.mem_append] at hi
  rcases hi with hi | hi | hi | hi
  · exact Or.inl hi
  · obtain ⟨c, -, rfl⟩ := List.mem_map.mp hi
    right
    refine ⟨by simp, by simp, by simp, by simp⟩

  · have := hk1 i hi
    right
    rw [this]
    refine ⟨by simp, by simp, by simp, by simp⟩
  · have := hk2 i hi
    right
    rw [this]
    refine ⟨by simp, by simp, by simp, by simp⟩

/-- A concrete oracle for an untested code change: the code diff is
non-empty and the test diff is empty. -/
def untested_env : ModuleEnv :=
  ⟨fun _ => ProcOutcome.exit 0, Except.ok ["calculator/calc.py"], Except.ok [],
    ProcOutcome.exit 0, ProcOutcome.exit 0, ProcOutcome.exit 0,
    ProcOutcome.exit 1, ProcOutcome.exit 0⟩

/-- Witness for C2 at a concrete module, with regression required. -/
theorem C2_untested_code_change_witness :
    (validate_module true "B" "H" "MB" sample_module untested_env initState).2 = true ∧
    (validate_module true "B" "H" "MB" sample_module untested_env
      initState).1.any_code_changed_without_tests = true ∧
    (validate_module true "B" "H" "MB" sample_module untested_env
      initState).1.overall_failure = true ∧
    ∀ i ∈ (validate_module true "B" "H" "MB" sample_module untested_env
        initState).1.trace,
      i ∈ initState.trace ∨ (i.kind ≠ CmdKind.newTests ∧ i.kind ≠ CmdKind.allTests ∧
        i.kind ≠ CmdKind.checkoutBase ∧ i.kind ≠ CmdKind.checkoutHead) :=
  C2_untested_code_change true "B" "H" "MB" sample_module untested_env initState
    ["calculator/calc.py"] (by decide) (by decide) (by decide) (by decide)

/-! ## C4: missing run_new_tests_command -/

/-- A module identical to `sample_module` but with no command templates. -/
def no_template_module : Module :=
  ⟨some "python", [], ["calculator/*.calc"], ["tests/test_*.calc"], none, none⟩

/-- A concrete oracle where both test and code files changed and every git
command succeeds. -/
def happy_env : ModuleEnv :=
  ⟨fun _ => ProcOutcome.exit 0, Except.ok ["calculator/calc.py"],
    Except.ok ["tests/test_calc.py"], ProcOutcome.exit 0, ProcOutcome.exit 0,
    ProcOutcome.exit 0, ProcOutcome.exit 1, ProcOutcome.exit 0⟩

/-- Counterexample to C4 as stated: a module that reaches the base-must-fail
check (test and code files changed, setup succeeded) with no
`run_new_tests_command` does NOT get a failing verdict — the check is
skipped with a warning, no new-tests command is launched, and neither the
module flag nor the run failure flag is set. -/
theorem C4_counterexample :
    (validate_module false "B" "H" "MB" no_template_module happy_env
        initState).2 = false ∧
    (validate_module false "B" "H" "MB" no_template_module happy_env
        initState).1.overall_failure = false ∧
    ((validate_module false "B" "H" "MB" no_template_module happy_env
        initState).1.trace.any fun i => i.kind == CmdKind.newTests) = false := by
  decide

theorem rule3b_ok_verdict (rr : Bool) (m : Module) (me : ModuleEnv)
    (ht : Bool) (s : RunState)
    (hall : str_truthy m.run_all_tests_command = false ∨
      (run_command false me.allTests).1 = true) :
    (rule3b rr m me ht false s).2 = false := by
  rcases hall with hall | hall
  · rw [rule3b_not_truthy rr m me ht false s hall]
  · unfold rule3b launch
    by_cases h1 : ((ht || rr) && str_truthy m.run_all_tests_command && !false) = true
    · rw [if_pos h1]
      simp [hall]
    · rw [if_neg h1]

/-- C4, amended as the code forces: for every module that reaches the
base-must-fail check, the absence (or emptiness) of `run_new_tests_command`
causes the check to be skipped with a warning: no new-tests command is
launched, the base-failure flag is untouched, and the module is NOT failed
by this step — its verdict is a pass whenever the swap checkouts (if any)
and the remaining all-tests step do not themselves fail. -/
theorem C4_amended_no_template_skips (rr : Bool) (bs hs mb : String) (m : Module)
    (me : ModuleEnv) (s : RunState) (ccf ctf : List String)
    (hsetup : ∀ c ∈ m.setup_commands, (run_command false (me.setupOracle c)).1 = true)
    (hccf : get_changed_files m.code_patterns me.diffCode = some ccf)
    (hctf : get_changed_files m.test_patterns me.diffTest = some ctf)
    (htne : ctf ≠ [])
    (hT : str_truthy m.run_new_tests_command = false)
    (hok : ccf = [] ∨ ((run_command false me.checkoutBase).1 = true ∧
      (run_command false me.restoreHead).1 = true))
    (hall : str_truthy m.run_all_tests_command = false ∨
      (run_command false me.allTests).1 = true) :
    (validate_module rr bs hs mb m me s).2 = false ∧
    (validate_module rr bs hs mb m me s).1.at_least_one_new_test_failed_on_main
      = s.at_least_one_new_test_failed_on_main ∧
    ∀ i ∈ (validate_module rr bs hs mb m me s).1.trace,
      i ∈ s.trace ∨ i.kind ≠ CmdKind.newTests := by
  have hht : ctf.isEmpty = false := by simp [List.isEmpty_iff, htne]
  simp only [validate_module, run_setup_ok me.setupOracle m.setup_commands s hsetup,
    run_diff_snd, hccf, hctf, hht, Bool.not_true, Bool.not_false, Bool.and_true,
    Bool.true_and, Bool.and_false, Bool.false_and, Bool.false_eq_true,
    if_false, if_true]
  obtain ⟨hmf, hal, hov, htrace⟩ := rule3a_no_template bs hs m me ccf ctf _ hT hok
  rw [hmf]
  obtain ⟨-, -, -, hal3, -, tr3, htr3, hk3⟩ :=
    rule3b_preserves rr m me true false (rule3a bs hs m me ccf ctf _).1
  refine ⟨rule3b_ok_verdict rr m me true _ hall, ?_, ?_⟩
  · rw [hal3, hal]
    obtain ⟨-, -, -, -, h4, -, -⟩ :=
      run_diff_preserves
        (run_diff { s with trace := s.trace ++ setup_trace m.setup_commands }
          mb hs m.code_patterns me.diffCode).1 mb hs m.test_patterns me.diffTest
    obtain ⟨-, -, -, -, h5, -, -⟩ :=
      run_diff_preserves { s with trace := s.trace ++ setup_trace m.setup_commands }
        mb hs m.code_patterns me.diffCode
    exact h4.trans h5
  · intro i hi
    rw [htr3] at hi
    rcases List.mem_append.mp hi with hi | hi
    · rcases htrace i hi with hin | hkind
      · -- membership in the pre-rule3a trace: setup and diff entries only
        obtain ⟨-, -, -, -, -, -, t2, ht2, hk2⟩ :=
          run_diff_preserves
            (run_diff { s with trace := s.trace ++ setup_trace m.setup_commands }
              mb hs m.code_patterns me.diffCode).1 mb hs m.test_patterns me.diffTest
        obtain ⟨-, -, -, -, -, -, t1, ht1, hk1⟩ :=
          run_diff_preserves { s with trace := s.trace ++ setup_trace m.setup_commands }
            mb hs m.code_patterns me.diffCode
        rw [ht2, ht1] at hin
        simp only [List.append_assoc, List.mem_append] at hin
        rcases hin with hin | hin | hin | hin
        · exact Or.inl hin
        · obtain ⟨c, -, rfl⟩ := List.mem_map.mp hin
          right; simp
        · right; rw [hk1 i hin]; simp
        · right; rw [hk2 i hin]; simp
      · exact Or.inr hkind
    · right; rw [hk3 i hi]; simp

/-- Witness for C4 (amended) at the concrete template-less module. -/
theorem C4_amended_no_template_skips_witness :
    (validate_module false "B" "H" "MB" no_template_module happy_env
        initState).2 = false ∧
    (validate_module false "B" "H" "MB" no_template_module happy_env
        initState).1.at_least_one_new_test_failed_on_main
      = initState.at_least_one_new_test_failed_on_main ∧
    ∀ i ∈ (validate_module false "B" "H" "MB" no_template_module happy_env
        initState).1.trace,
      i ∈ initState.trace ∨ i.kind ≠ CmdKind.newTests :=
  C4_amended_no_template_skips false "B" "H" "MB" no_template_module happy_env
    initState ["calculator/calc.py"] ["tests/test_calc.py"] (by decide) (by decide)
    (by decide) (by decide) (by decide)
    (Or.inr ⟨by decide, by decide⟩) (Or.inl (by decide))

/-! ## C5: missing run_all_tests_command -/

/-- The whole-run oracle for the C5 counterexample. -/
def run_env5 : RunEnv :=
  ⟨".", ProcOutcome.exit 0, Except.ok "MB", [happy_env]⟩

/-- Counterexample to C5 as stated: a run with a single module whose test
files changed (so the all-tests rule is reached) but whose
`run_all_tests_command` is missing exits with status 0 — the module passes,
refuting "a module missing the template cannot pass: terminal FAIL". -/
theorem C5_counterexample :
    (main_run false "B" "H" [sample_module] run_env5).1 = 0 := by decide

/-- C5, amended as the code forces: a module whose `run_all_tests_command`
is absent (or empty) has the all-tests rule skipped with a warning: the
rule leaves both the run state and the module verdict unchanged, so the
module is not failed on that account and can pass. -/
theorem C5_amended_missing_template_skips (rr : Bool) (m : Module)
    (me : ModuleEnv) (ht mf : Bool) (s : RunState)
    (h : str_truthy m.run_all_tests_command = false) :
    rule3b rr m me ht mf s = (s, mf) :=
  rule3b_not_truthy rr m me ht mf s h

/-- Witness for C5 (amended) at the concrete module. -/
theorem C5_amended_missing_template_skips_witness :
    rule3b false sample_module happy_env true false initState
      = (initState, false) :=
  C5_amended_missing_template_skips false sample_module happy_env true false
    initState (by decide)

/-! ## C6: tests changed without code changes -/

/-- A concrete oracle where only test files changed. -/
def tests_only_env : ModuleEnv :=
  ⟨fun _ => ProcOutcome.exit 0, Except.ok [], Except.ok ["tests/test_calc.py"],
    ProcOutcome.exit 0, ProcOutcome.exit 0, ProcOutcome.exit 0,
    ProcOutcome.exit 1, ProcOutcome.exit 0⟩

/-- Counterexample to C6 as stated: for a module whose change set has test
changes but no code changes, the new-tests command IS executed with
`expect_failure = true` — the base-must-fail check is not skipped; only the
checkout/swap is. -/
theorem C6_counterexample :
    ((validate_module false "B" "H" "MB" sample_module tests_only_env
        initState).1.trace.any
      fun i => i.kind == CmdKind.newTests && i.expect_failure) = true := by
  decide

/-- C6, amended as the code forces: for every module whose resolved change
set has changed test files but no changed code files, only the swap is
skipped (no checkout command is launched and the tracked tree state is
untouched), while the new-tests command is still executed with
`expect_failure = true` against the PR code. -/
theorem C6_amended_check_still_runs (rr : Bool) (bs hs mb : String) (m : Module)
    (me : ModuleEnv) (s : RunState) (ctf : List String)
    (hsetup : ∀ c ∈ m.setup_commands, (run_command false (me.setupOracle c)).1 = true)
    (hccf : get_changed_files m.code_patterns me.diffCode = some [])
    (hctf : get_changed_files m.test_patterns me.diffTest = some ctf)
    (htne : ctf ≠ [])
    (hT : str_truthy m.run_new_tests_command = true) :
    ∃ t, (validate_module rr bs hs mb m me s).1.trace = s.trace ++ t ∧
      (∃ i ∈ t, i.kind = CmdKind.newTests ∧ i.expect_failure = true) ∧
      (∀ i ∈ t, i.kind ≠ CmdKind.checkoutBase ∧ i.kind ≠ CmdKind.checkoutHead) := by
  have hht : ctf.isEmpty = false := by simp [List.isEmpty_iff, htne]
  simp only [validate_module, run_setup_ok me.setupOracle m.setup_commands s hsetup,
    run_diff_snd, hccf, hctf, hht, List.isEmpty_nil, Bool.not_true, Bool.not_false,
    Bool.and_true, Bool.true_and, Bool.and_false, Bool.false_and, Bool.false_eq_true,
    if_false, if_true]
  obtain ⟨c, h3t, -⟩ := rule3a_no_code_with_template bs hs m me ctf _ hT
  obtain ⟨-, -, -, -, -, tr3, htr3, hk3⟩ :=
    rule3b_preserves rr m me true (rule3a bs hs m me [] ctf _).2
      (rule3a bs hs m me [] ctf _).1
  obtain ⟨-, -, -, -, -, -, t2, ht2, hk2⟩ :=
    run_diff_preserves
      (run_diff { s with trace := s.trace ++ setup_trace m.setup_commands }
        mb hs m.code_patterns me.diffCode).1 mb hs m.test_patterns me.diffTest
  obtain ⟨-, -, -, -, -, -, t1, ht1, hk1⟩ :=
    run_diff_preserves { s with trace := s.trace ++ setup_trace m.setup_commands }
      mb hs m.code_patterns me.diffCode
  refine ⟨setup_trace m.setup_commands ++ t1 ++ t2 ++ [⟨c, true, CmdKind.newTests⟩]
    ++ tr3, ?_, ?_, ?_⟩
  · rw [htr3, h3t, ht2, ht1]
    simp [List.append_assoc]
  · exact ⟨⟨c, true, CmdKind.newTests⟩, by simp, rfl, rfl⟩
  · intro i hi
    simp only [List.append_assoc, List.mem_append] at hi
    rcases hi with hi | hi | hi | hi | hi
    · obtain ⟨x, -, rfl⟩ := List.mem_map.mp hi
      constructor <;> simp
    · rw [hk1 i hi]; constructor <;> simp
    · rw [hk2 i hi]; constructor <;> simp
    · rcases List.mem_singleton.mp hi with rfl
      constructor <;> simp
    · rw [hk3 i hi]; constructor <;> simp

/-- Witness for C6 (amended) at the concrete tests-only module. -/
theorem C6_amended_check_still_runs_witness :
    ∃ t, (validate_module false "B" "H" "MB" sample_module tests_only_env
        initState).1.trace = initState.trace ++ t ∧
      (∃ i ∈ t, i.kind = CmdKind.newTests ∧ i.expect_failure = true) ∧
      (∀ i ∈ t, i.kind ≠ CmdKind.checkoutBase ∧ i.kind ≠ CmdKind.checkoutHead) :=
  C6_amended_check_still_runs false "B" "H" "MB" sample_module tests_only_env
    initState ["tests/test_calc.py"] (by decide) (by decide) (by decide)
    (by decide) (by decide)

/-! ## C7: change-set resolution failure -/

theorem validate_module_diff_fail (rr : Bool) (bs hs mb : String) (m : Module)
    (me : ModuleEnv) (s : RunState)
    (hsetup : ∀ c ∈ m.setup_commands, (run_command false (me.setupOracle c)).1 = true)
    (hdiff : get_changed_files m.code_patterns me.diffCode = none ∨
      get_changed_files m.test_patterns me.diffTest = none) :
    (validate_module rr bs hs mb m me s).1.overall_failure = true := by
  simp only [validate_module, run_setup_ok me.setupOracle m.setup_commands s hsetup,
    run_diff_snd]
  rcases hdiff with hd | hd
  · simp [hd]
  · cases hcode : get_changed_files m.code_patterns me.diffCode with
    | none => simp [hcode]
    | some l => simp [hcode, hd]

/-- C7, amended as the code forces: when change-set resolution fails for a
module, the resolver returns `none` — a value distinct from the empty
sequence `some []` — the run is marked failed and its final exit status is
non-zero; the run does not abort, however: the failing module is skipped
and the remaining modules are still evaluated (see the counterexample). -/
theorem C7_amended_diff_failure_fails_run (rr : Bool) (bs hs : String)
    (modules : List Module) (env : RunEnv) (pre post : List (Module × ModuleEnv))
    (m : Module) (me : ModuleEnv)
    (hzip : modules.zip env.module_envs = pre ++ (m, me) :: post)
    (hsetup : ∀ c ∈ m.setup_commands, (run_command false (me.setupOracle c)).1 = true)
    (hdiff : get_changed_files m.code_patterns me.diffCode = none ∨
      get_changed_files m.test_patterns me.diffTest = none) :
    (get_changed_files m.code_patterns me.diffCode ≠ some [] ∨
      get_changed_files m.test_patterns me.diffTest ≠ some []) ∧
    (main_run rr bs hs modules env).1 = 1 := by
  constructor
  · rcases hdiff with hd | hd
    · left; rw [hd]; intro hc; cases hc
    · right; rw [hd]; intro hc; cases hc
  · have hov : ∀ (s0 : RunState) (mb : String),
        (run_modules rr bs hs mb ((m, me) :: post)
          (run_modules rr bs hs mb pre s0)).overall_failure = true := by
      intro s0 mb
      show (run_modules rr bs hs mb post _).overall_failure = true
      exact run_modules_overall_mono rr bs hs mb post _
        (validate_module_diff_fail rr bs hs mb m me _ hsetup hdiff)
    simp only [main_run, hzip, run_modules_append]
    cases hmb : compute_merge_base env.merge_base_out with
    | none => rfl
    | some mb => simp [final_failed_of_overall rr _ (hov _ mb)]

/-- A concrete oracle whose code diff computation errors. -/
def diff_fail_env : ModuleEnv :=
  ⟨fun _ => ProcOutcome.exit 0, Except.error (), Except.ok [],
    ProcOutcome.exit 0, ProcOutcome.exit 0, ProcOutcome.exit 0,
    ProcOutcome.exit 1, ProcOutcome.exit 0⟩

/-- A second module whose setup command is observable in the trace. -/
def m2_module : Module := ⟨some "go", ["echo m2"], [], [], none, none⟩

/-- A no-op oracle for the second module. -/
def m2_env : ModuleEnv :=
  ⟨fun _ => ProcOutcome.exit 0, Except.ok [], Except.ok [],
    ProcOutcome.exit 0, ProcOutcome.exit 0, ProcOutcome.exit 0,
    ProcOutcome.exit 1, ProcOutcome.exit 0⟩

/-- The whole-run oracle for the C7 witness and counterexample. -/
def run_env7 : RunEnv :=
  ⟨".", ProcOutcome.exit 0, Except.ok "MB", [diff_fail_env, m2_env]⟩

/-- Witness for C7 (amended) at a concrete two-module run. -/
theorem C7_amended_diff_failure_fails_run_witness :
    (get_changed_files sample_module.code_patterns diff_fail_env.diffCode ≠ some [] ∨
      get_changed_files sample_module.test_patterns diff_fail_env.diffTest ≠ some []) ∧
    (main_run false "B" "H" [sample_module, m2_module] run_env7).1 = 1 :=
  C7_amended_diff_failure_fails_run false "B" "H" [sample_module, m2_module]
    run_env7 [] [(m2_module, m2_env)] sample_module diff_fail_env
    rfl (by decide) (Or.inl (by decide))

/-- Counterexample to C7 as stated: the run does not abort at the module
whose diff computation failed — the second module is still evaluated (its
setup command appears in the trace) even though the first module's resolver
returned a failure; the run merely records the failure and exits 1. -/
theorem C7_counterexample :
    (main_run false "B" "H" [sample_module, m2_module] run_env7).1 = 1 ∧
    ((main_run false "B" "H" [sample_module, m2_module] run_env7).2.trace.any
      fun i => i.cmd == "echo m2") = true := by decide

/-! ## C9: no changes, regression not required -/

/-- A module with an observable setup command and both pattern kinds. -/
def setup_module : Module :=
  ⟨some "python", ["make deps"], ["calculator/*.calc"], ["tests/test_*.calc"],
    some "pytest \x7bTEST_FILES\x7d", some "pytest"⟩

/-- A concrete oracle where nothing changed. -/
def no_changes_env : ModuleEnv :=
  ⟨fun _ => ProcOutcome.exit 0, Except.ok [], Except.ok [],
    ProcOutcome.exit 0, ProcOutcome.exit 0, ProcOutcome.exit 0,
    ProcOutcome.exit 1, ProcOutcome.exit 0⟩

/-- Counterexample to C9 as stated: for a module with no changed files and
regression not required, the module's setup commands ARE executed — setup
runs before change-set resolution, so "no command of that module, including
its setup commands, is executed" fails on the code. -/
theorem C9_counterexample :
    ((validate_module false "B" "H" "MB" setup_module no_changes_env
        initState).1.trace.any fun i => i.kind == CmdKind.setup) = true := by
  decide

/-- C9, amended as the code forces: for every module whose resolved change
set is empty in both kinds, when regression is not required the module
passes (verdict not failed, run-failure flag unchanged) and no test command
is executed — but its setup commands and diff commands are executed, since
setup runs before change-set resolution. -/
theorem C9_amended_skip_after_setup (bs hs mb : String) (m : Module)
    (me : ModuleEnv) (s : RunState)
    (hsetup : ∀ c ∈ m.setup_commands, (run_command false (me.setupOracle c)).1 = true)
    (hccf : get_changed_files m.code_patterns me.diffCode = some [])
    (hctf : get_changed_files m.test_patterns me.diffTest = some []) :
    (validate_module false bs hs mb m me s).2 = false ∧
    (validate_module false bs hs mb m me s).1.overall_failure = s.overall_failure ∧
    ∀ i ∈ (validate_module false bs hs mb m me s).1.trace,
      i ∈ s.trace ∨ (i.kind = CmdKind.setup ∨ i.kind = CmdKind.diff) := by
  simp only [validate_module, run_setup_ok me.setupOracle m.setup_commands s hsetup,
    run_diff_snd, hccf, hctf, List.isEmpty_nil, Bool.not_true, Bool.not_false,
    Bool.and_true, Bool.true_and, Bool.and_false, Bool.false_and, Bool.or_self,
    Bool.false_eq_true, if_false, if_true, rule3b, launch]
  obtain ⟨-, h1o, -, -, -, -, t1, ht1, hk1⟩ :=
    run_diff_preserves { s with trace := s.trace ++ setup_trace m.setup_commands }
      mb hs m.code_patterns me.diffCode
  obtain ⟨-, h2o, -, -, -, -, t2, ht2, hk2⟩ :=
    run_diff_preserves
      (run_diff { s with trace := s.trace ++ setup_trace m.setup_commands }
        mb hs m.code_patterns me.diffCode).1 mb hs m.test_patterns me.diffTest
  refine ⟨by simp, h2o.trans h1o, ?_⟩
  intro i hi
  rw [ht2, ht1] at hi
  simp only [List.append_assoc, List.mem_append] at hi
  rcases hi with hi | hi | hi | hi
  · exact Or.inl hi
  · obtain ⟨x, -, rfl⟩ := List.mem_map.mp hi
    exact Or.inr (Or.inl rfl)
  · exact Or.inr (Or.inr (hk1 i hi))
  · exact Or.inr (Or.inr (hk2 i hi))

/-- Witness for C9 (amended) at the concrete no-changes module. -/
theorem C9_amended_skip_after_setup_witness :
    (validate_module false "B" "H" "MB" setup_module no_changes_env
        initState).2 = false ∧
    (validate_module false "B" "H" "MB" setup_module no_changes_env
        initState).1.overall_failure = initState.overall_failure ∧
    ∀ i ∈ (validate_module false "B" "H" "MB" setup_module no_changes_env
        initState).1.trace,
      i ∈ initState.trace ∨ (i.kind = CmdKind.setup ∨ i.kind = CmdKind.diff) :=
  C9_amended_skip_after_setup "B" "H" "MB" setup_module no_changes_env initState
    (by decide) (by decide) (by decide)

/-! ## C3: the CommandExecutor verdict -/

/-- C3: for every command execution, `run_command` returns `ok = true` iff
(`expect_failure` and the exit code is non-zero) or (not `expect_failure`
and the exit code is zero) — the truth table `(false,0) ↦ true`,
`(false,7) ↦ false`, `(true,0) ↦ false`, `(true,3) ↦ true` — and a process
that cannot be launched is reported as `(false, 1)`; `run_command` is a
total function, so it never throws. -/
theorem C3_run_command_truth_table :
    ∀ (ef : Bool) (c : Int),
      ((run_command ef (ProcOutcome.exit c)).1 = true ↔
        ((ef = true ∧ c ≠ 0) ∨ (ef = false ∧ c = 0))) ∧
      run_command ef ProcOutcome.launchFailure = (false, 1) ∧
      (run_command false (ProcOutcome.exit 0)).1 = true ∧
      (run_command false (ProcOutcome.exit 7)).1 = false ∧
      (run_command true (ProcOutcome.exit 0)).1 = false ∧
      (run_command true (ProcOutcome.exit 3)).1 = true := by
  intro ef c
  refine ⟨?_, rfl, by decide, by decide, by decide, by decide⟩
  cases ef <;> by_cases hc : c = 0 <;> simp [run_command, hc]

/-! ## C10: the regression-required flag -/

/-- C10: the run-wide regression-required flag is true iff the
`REGRESSION_REQUIRED` environment variable is set and its value, lowercased,
is exactly `"true"`; an unset variable, `"1"`, `"yes"`, or `"TRUE "` (with
trailing whitespace) all count as regression not required, while `"TRUE"`
counts as required. -/
theorem C10_regression_required_flag :
    ∀ v : Option String,
      (regression_required_of v = true ↔ ∃ s, v = some s ∧ str_lower s = "true") ∧
      regression_required_of none = false ∧
      regression_required_of (some "1") = false ∧
      regression_required_of (some "yes") = false ∧
      regression_required_of (some "TRUE ") = false ∧
      regression_required_of (some "TRUE") = true := by
  intro v
  refine ⟨?_, by decide, by decide, by decide, by decide, by decide⟩
  cases v with
  | none =>
    constructor
    · intro h; exact absurd h (by decide)
    · rintro ⟨s, hs, -⟩; exact Option.noConfusion hs
  | some s =>
    simp [regression_required_of]

/-! ## C8: the skip-test-validation label -/

/-- C8: for every run whose label set contains `skip-test-validation`, the
run exits with status 0 and no module is evaluated — zero commands are
launched.  (The label gate is modelled from the spec: it lives in the
workflow that invokes the script, which is not part of `src/`.) -/
theorem C8_skip_test_validation (labels : List String) (rr : Bool)
    (base_sha head_sha : String) (modules : List Module) (env : RunEnv)
    (h : "skip-test-validation" ∈ labels) :
    orchestrate labels rr base_sha head_sha modules env = (0, []) := by
  simp [orchestrate, h]

/-- Witness for C8 at a concrete run. -/
theorem C8_skip_test_validation_witness :
    orchestrate ["require-regression", "skip-test-validation"] true "B" "H"
      [⟨some "py", [], [], [], none, none⟩]
      ⟨".", ProcOutcome.exit 0, Except.ok "MB", []⟩ = (0, []) :=
  C8_skip_test_validation _ _ _ _ _ _ (by simp)

end ValidatePr
